import Mathlib

/-
Verification of the adaptive jitter-buffer subsystem of expo-streamer:
chunk-to-frame decoding (FrameProcessor), arrival-quality measurement
(QualityMonitor), buffer-depth management (AudioBufferManager / BufferCore)
and the adaptive buffering policy (BufferManagerAdaptive / AdaptivePolicy).

The TypeScript sources of src/audio are not part of the source tree here
(only their Jest test suites and documentation are), so every component is
modelled from the specification, with the test suites pinning the observable
constants (default config 240/120/480/20 ms, the 64 KiB chunk cap, the 50 ms
critical floor, the 100-sample history bound, the 5000 ms re-evaluation
interval, the per-mode latency thresholds 250/150/100 ms).

Milliseconds are modelled as rationals, byte strings as lists of naturals,
and the mutable classes as explicit state-passing functions.
-/

namespace ExpoStreamer

/-- Modelled from the spec: the fixed set of PCM sample encodings accepted by
the playback path (missing source file src/types.ts). -/
inductive Encoding
  | pcm_s16le
  | pcm_f32le
deriving DecidableEq

/-- Modelled from the spec: one incoming chunk payload
`\x7b audioData, isFirst?, isFinal? \x7d`; `audioData` is `none` for a
null/undefined field (missing source file src/audio/FrameProcessor.ts). -/
structure AudioChunkPayload where
  audioData : Option String
  isFirst : Bool
  isFinal : Bool
deriving DecidableEq

/-- Modelled from the spec: a fixed-duration audio frame with sequence and
timing metadata, immutable once created (missing source file
src/audio/FrameProcessor.ts). -/
structure AudioFrame where
  sequenceNumber : Nat
  payload : List Nat
  durationMs : ℚ
  capturedAtMs : ℚ
  isFirst : Bool
  isFinal : Bool
deriving DecidableEq

/-- Modelled from the spec: whitespace characters stripped from encoded input
before decoding. -/
def isWhitespaceChar (c : Char) : Bool :=
  c = ' ' || c = '\n' || c = '\r' || c = '\t'

/-- Modelled from the spec: strip whitespace from an encoded chunk before
decoding. -/
def stripWhitespace (s : String) : String :=
  String.mk (s.data.filter (fun c => !isWhitespaceChar c))

/-- Modelled from the spec: value of one base64 alphabet character, `none` for
a character outside the alphabet. -/
def b64CharValue (c : Char) : Option Nat :=
  if 'A' ≤ c && c ≤ 'Z' then some (c.toNat - 65)
  else if 'a' ≤ c && c ≤ 'z' then some (c.toNat - 71)
  else if '0' ≤ c && c ≤ '9' then some (c.toNat - 48 + 52)
  else if c = '+' then some 62
  else if c = '/' then some 63
  else none

/-- Modelled from the spec: drop the trailing base64 padding characters
(standard variable padding is tolerated). -/
def dropTrailingPadding (cs : List Char) : List Char :=
  (cs.reverse.dropWhile (fun c => c = '=')).reverse

/-- Modelled from the spec: reassemble decoded bytes from base64 sextet
values, four sextets to three bytes, with a shorter final group. -/
def decodeSextets : List Nat → List Nat
  | a :: b :: c :: d :: rest =>
      (a * 4 + b / 16) :: ((b % 16) * 16 + c / 4) :: ((c % 4) * 64 + d) :: decodeSextets rest
  | [a, b, c] => [a * 4 + b / 16, (b % 16) * 16 + c / 4]
  | [a, b] => [a * 4 + b / 16]
  | [_] => []
  | [] => []

/-- Modelled from the spec: lenient base64 decoding; `none` exactly when the
input is malformed (an out-of-alphabet character, or an impossible length). -/
def base64Decode (s : String) : Option (List Nat) :=
  let core := dropTrailingPadding s.data
  if core.length % 4 = 1 then none
  else (core.mapM b64CharValue).map decodeSextets

/-- Modelled from the spec: decoded byte-size estimate from the encoded
string length (`len * 3/4`). -/
def estimatedDecodedSize (encodedLength : Nat) : ℚ :=
  (encodedLength : ℚ) * 3 / 4

/-- Modelled from the spec: the fixed (non-configurable) 64 KiB safety cap on
the decoded size of a single chunk. -/
def maxChunkBytes : ℚ := 64 * 1024

/-- Modelled from the spec: bytes of decoded PCM audio per millisecond
(16-bit mono samples; the tests pin 32000 bytes to 1000 ms). -/
def bytesPerMs : Nat := 32

/-- Modelled from the spec: the FrameProcessor, configured with the frame
interval and carrying the running sequence counter (missing source file
src/audio/FrameProcessor.ts). -/
structure FrameProcessor where
  frameIntervalMs : ℚ
  nextSequenceNumber : Nat
deriving DecidableEq

/-- Modelled from the spec: a freshly constructed FrameProcessor. -/
def FrameProcessor.init (frameIntervalMs : ℚ) : FrameProcessor :=
  { frameIntervalMs := frameIntervalMs, nextSequenceNumber := 0 }

/-- Modelled from the spec: decoded bytes spanning one frame interval. -/
def FrameProcessor.bytesPerFrame (fp : FrameProcessor) : Nat :=
  (Int.floor (fp.frameIntervalMs * (bytesPerMs : ℚ))).toNat

/-- Modelled from the spec: split decoded bytes into successive slices of at
most `sz` bytes (everything in one slice if the frame size is degenerate). -/
def chunkBytes (sz : Nat) (bytes : List Nat) : List (List Nat) :=
  if h : bytes = [] then []
  else if hsz : sz = 0 then [bytes]
  else bytes.take sz :: chunkBytes sz (bytes.drop sz)
termination_by bytes.length
decreasing_by
  simp only [List.length_drop]
  exact Nat.sub_lt (List.length_pos.mpr h) (Nat.pos_of_ne_zero hsz)

/-- Modelled from the spec: `parseChunk` turns one chunk payload into a
sequence of fixed-duration frames. Null/undefined or empty `audioData`,
malformed encoded input, and chunks whose estimated decoded size exceeds the
64 KiB cap all yield the empty sequence; parsing is total and never fails.
`isFirst` is attached only to the first produced frame and `isFinal` only to
the last. Missing source file src/audio/FrameProcessor.ts. -/
def FrameProcessor.parseChunk (fp : FrameProcessor) (payload : AudioChunkPayload)
    (nowMs : ℚ) : List AudioFrame × FrameProcessor :=
  match payload.audioData with
  | none => ([], fp)
  | some s =>
      let cleaned := stripWhitespace s
      if cleaned.length = 0 then ([], fp)
      else if maxChunkBytes < estimatedDecodedSize cleaned.length then ([], fp)
      else
        match base64Decode cleaned with
        | none => ([], fp)
        | some bytes =>
            if bytes.isEmpty then ([], fp)
            else
              let chunks := chunkBytes fp.bytesPerFrame bytes
              let n := chunks.length
              let frames := chunks.mapIdx (fun i chunk =>
                { sequenceNumber := fp.nextSequenceNumber + i
                  payload := chunk
                  durationMs := (chunk.length : ℚ) / (bytesPerMs : ℚ)
                  capturedAtMs := nowMs
                  isFirst := payload.isFirst && i == 0
                  isFinal := payload.isFinal && i + 1 == n })
              (frames, { fp with nextSequenceNumber := fp.nextSequenceNumber + n })

/-- Modelled from the spec: the buffer health classification
`idle | healthy | degraded | critical` (missing source file src/types.ts). -/
inductive BufferHealthState
  | idle
  | healthy
  | degraded
  | critical
deriving DecidableEq

/-- Modelled from the spec: a QualityMetrics snapshot surfaced to consumers
(missing source file src/types.ts). -/
structure QualityMetrics where
  currentBufferMs : ℚ
  targetBufferMs : ℚ
  underrunCount : Nat
  overrunCount : Nat
  averageJitter : ℚ
  bufferHealthState : BufferHealthState
  adaptiveAdjustmentsCount : Nat
deriving DecidableEq

/-- Modelled from the spec: ring bound of the arrival-time and buffer-depth
histories (last 100 samples). -/
def maxHistorySize : Nat := 100

/-- Modelled from the spec: cap a history list to its most recent
`maxHistorySize` entries. -/
def capHistory (l : List ℚ) : List ℚ :=
  if maxHistorySize < l.length then l.drop (l.length - maxHistorySize) else l

/-- Modelled from the spec: the exponential-moving-average smoothing factor
for jitter (α ≈ 0.1). -/
def jitterSmoothingFactor : ℚ := 1 / 10

/-- Modelled from the spec: the QualityMonitor state — arrival and
buffer-depth histories, underrun/overrun counters, EMA jitter and the
adaptive-adjustment counter (missing source file src/audio/QualityMonitor.ts). -/
structure QualityMonitor where
  frameIntervalMs : ℚ
  lastArrivalMs : Option ℚ
  arrivalHistory : List ℚ
  bufferHistory : List ℚ
  currentBufferMs : ℚ
  underrunCount : Nat
  overrunCount : Nat
  averageJitter : ℚ
  adaptiveAdjustmentsCount : Nat
deriving DecidableEq

/-- Modelled from the spec: a freshly constructed QualityMonitor with all
counters and history at initial values. -/
def QualityMonitor.init (frameIntervalMs : ℚ) : QualityMonitor :=
  { frameIntervalMs := frameIntervalMs
    lastArrivalMs := none
    arrivalHistory := []
    bufferHistory := []
    currentBufferMs := 0
    underrunCount := 0
    overrunCount := 0
    averageJitter := 0
    adaptiveAdjustmentsCount := 0 }

/-- Modelled from the spec: `recordFrameArrival` — no jitter contribution on
the first call; afterwards instantaneous jitter is `abs (dt - interval)` and
the average moves by the EMA rule; history is ring-bounded to 100. -/
def QualityMonitor.recordFrameArrival (qm : QualityMonitor) (timestampMs : ℚ) :
    QualityMonitor :=
  let jitterUpdated :=
    match qm.lastArrivalMs with
    | none => qm
    | some last =>
        let instJitter := |timestampMs - last - qm.frameIntervalMs|
        { qm with averageJitter :=
            qm.averageJitter * (1 - jitterSmoothingFactor) +
              instJitter * jitterSmoothingFactor }
  { jitterUpdated with
    lastArrivalMs := some timestampMs
    arrivalHistory := capHistory (qm.arrivalHistory ++ [timestampMs]) }

/-- Modelled from the spec: `updateBufferLevel` records the current depth in
the ring-bounded buffer history. -/
def QualityMonitor.updateBufferLevel (qm : QualityMonitor) (ms : ℚ) : QualityMonitor :=
  { qm with
    currentBufferMs := ms
    bufferHistory := capHistory (qm.bufferHistory ++ [ms]) }

/-- Modelled from the spec: `recordUnderrun` monotonically increments the
underrun counter. -/
def QualityMonitor.recordUnderrun (qm : QualityMonitor) : QualityMonitor :=
  { qm with underrunCount := qm.underrunCount + 1 }

/-- Modelled from the spec: `recordOverrun` monotonically increments the
overrun counter. -/
def QualityMonitor.recordOverrun (qm : QualityMonitor) : QualityMonitor :=
  { qm with overrunCount := qm.overrunCount + 1 }

/-- Modelled from the spec: the absolute floor (≈ 50 ms) under which the
buffer is critical regardless of the configured minimum. -/
def criticalFloorMs : ℚ := 50

/-- Modelled from the spec: the safety margin (≈ 150 ms) under which a
declining buffer trend classifies as degraded. -/
def safetyMarginMs : ℚ := 150

/-- Modelled from the spec: declining buffer-depth trend over the recent
window (the last 10 recorded depths). -/
def isDecliningTrend (hist : List ℚ) : Bool :=
  let recent := hist.drop (hist.length - 10)
  match recent.head?, recent.getLast? with
  | some first, some last => last < first
  | _, _ => false

/-- Modelled from the spec: `getBufferHealthState` — `idle` when not playing;
`critical` when the depth is below the `minBufferMs` threshold or below the
absolute 50 ms floor; `degraded` on underruns, frequent overruns (> 3), jitter
above half the frame interval, or a low and declining buffer; else `healthy`.
Missing source file src/audio/QualityMonitor.ts. -/
def QualityMonitor.getBufferHealthState (qm : QualityMonitor) (isPlaying : Bool)
    (minBufferMs : ℚ) : BufferHealthState :=
  if isPlaying = false then BufferHealthState.idle
  else if qm.currentBufferMs < minBufferMs ∨ qm.currentBufferMs < criticalFloorMs then
    BufferHealthState.critical
  else if 0 < qm.underrunCount ∨ 3 < qm.overrunCount ∨
      qm.frameIntervalMs / 2 < qm.averageJitter ∨
      (qm.currentBufferMs < safetyMarginMs ∧ isDecliningTrend qm.bufferHistory) then
    BufferHealthState.degraded
  else BufferHealthState.healthy

/-- Modelled from the spec: minimal number of arrival samples before a
recommendation is produced (≈ 10–15; the tests accept 10). -/
def minSamplesForAdjustment : Nat := 10

/-- Modelled from the spec: the very-low-jitter threshold (the tests pin
jitter below 4 ms as a stable network). -/
def lowJitterThresholdMs : ℚ := 4

/-- Modelled from the spec: `getRecommendedAdjustment` — 0 until enough
arrival samples exist; positive scaled by the underrun count when underruns
were observed; negative scaled by the overrun count when overruns are
frequent; negative when jitter is very low and no issues are present. Every
non-zero recommendation increments `adaptiveAdjustmentsCount` by exactly one.
Returns the signed adjustment together with the updated monitor. Missing
source file src/audio/QualityMonitor.ts. -/
def QualityMonitor.getRecommendedAdjustment (qm : QualityMonitor) :
    ℚ × QualityMonitor :=
  if qm.arrivalHistory.length < minSamplesForAdjustment then (0, qm)
  else
    let adj : ℚ :=
      if 0 < qm.underrunCount then (qm.underrunCount : ℚ) * 20
      else if 3 < qm.overrunCount then -((qm.overrunCount : ℚ) * 10)
      else if qm.averageJitter < lowJitterThresholdMs then -20
      else 0
    if adj = 0 then (0, qm)
    else (adj, { qm with adaptiveAdjustmentsCount := qm.adaptiveAdjustmentsCount + 1 })

/-- Modelled from the spec: `reset` clears all counters and history back to
the initial values. -/
def QualityMonitor.reset (qm : QualityMonitor) : QualityMonitor :=
  QualityMonitor.init qm.frameIntervalMs

/-- Modelled from the spec: jitter is reported rounded to two decimal places
(round half up, as the tests pin). -/
def roundTo2 (x : ℚ) : ℚ :=
  (Int.floor (x * 100 + 1 / 2) : ℚ) / 100

/-- Modelled from the spec: `getMetrics` assembles the monitor's own
snapshot; the monitor itself knows no target and no playing flag, so those
read 0 and `idle` here. -/
def QualityMonitor.getMetrics (qm : QualityMonitor) : QualityMetrics :=
  { currentBufferMs := qm.currentBufferMs
    targetBufferMs := 0
    underrunCount := qm.underrunCount
    overrunCount := qm.overrunCount
    averageJitter := roundTo2 qm.averageJitter
    bufferHealthState := qm.getBufferHealthState false 0
    adaptiveAdjustmentsCount := qm.adaptiveAdjustmentsCount }

/-- Modelled from the spec: the jitter-buffer configuration
`\x7b targetBufferMs, minBufferMs, maxBufferMs, frameIntervalMs \x7d`
(missing source file src/types.ts). -/
structure IAudioBufferConfig where
  targetBufferMs : ℚ
  minBufferMs : ℚ
  maxBufferMs : ℚ
  frameIntervalMs : ℚ
deriving DecidableEq

/-- Modelled from the spec: the default buffer configuration used by the
tests (240/120/480/20 ms). -/
def defaultBufferConfig : IAudioBufferConfig :=
  { targetBufferMs := 240, minBufferMs := 120, maxBufferMs := 480, frameIntervalMs := 20 }

/-- Modelled from the spec: a Partial update of IAudioBufferConfig — each
field optional, missing fields keep their current value. -/
structure BufferConfigUpdate where
  targetBufferMs : Option ℚ := none
  minBufferMs : Option ℚ := none
  maxBufferMs : Option ℚ := none
  frameIntervalMs : Option ℚ := none
deriving DecidableEq

/-- Modelled from the spec: merge a Partial update into a configuration. -/
def mergeConfig (base : IAudioBufferConfig) (upd : BufferConfigUpdate) :
    IAudioBufferConfig :=
  { targetBufferMs := upd.targetBufferMs.getD base.targetBufferMs
    minBufferMs := upd.minBufferMs.getD base.minBufferMs
    maxBufferMs := upd.maxBufferMs.getD base.maxBufferMs
    frameIntervalMs := upd.frameIntervalMs.getD base.frameIntervalMs }

/-- Modelled from the spec: clamp a candidate target into
`[minBufferMs, maxBufferMs]`. -/
def clampTarget (cfg : IAudioBufferConfig) (t : ℚ) : ℚ :=
  max cfg.minBufferMs (min cfg.maxBufferMs t)

/-- Modelled from the spec: the BufferCore (class AudioBufferManager) —
frame queue, playback flag, turn routing data and the one-to-one owned
FrameProcessor and QualityMonitor, which are `none` after teardown (missing
source file src/audio/BufferManagerCore.ts). -/
structure AudioBufferManager where
  config : IAudioBufferConfig
  frameQueue : List AudioFrame
  playing : Bool
  turnId : Option String
  encoding : Encoding
  frameProcessor : Option FrameProcessor
  qualityMonitor : Option QualityMonitor
deriving DecidableEq

/-- Modelled from the spec: the constructor merges a Partial configuration
with the defaults and creates the owned FrameProcessor and QualityMonitor. -/
def AudioBufferManager.create (upd : BufferConfigUpdate) : AudioBufferManager :=
  let cfg := mergeConfig defaultBufferConfig upd
  { config := cfg
    frameQueue := []
    playing := false
    turnId := none
    encoding := Encoding.pcm_s16le
    frameProcessor := some (FrameProcessor.init cfg.frameIntervalMs)
    qualityMonitor := some (QualityMonitor.init cfg.frameIntervalMs) }

/-- Modelled from the spec: `setTurnId`. -/
def AudioBufferManager.setTurnId (m : AudioBufferManager) (turnId : String) :
    AudioBufferManager :=
  { m with turnId := some turnId }

/-- Modelled from the spec: `setEncoding`. -/
def AudioBufferManager.setEncoding (m : AudioBufferManager) (e : Encoding) :
    AudioBufferManager :=
  { m with encoding := e }

/-- Modelled from the spec: buffered depth — the sum of the durations of the
queued frames. -/
def totalDuration (frames : List AudioFrame) : ℚ :=
  (frames.map AudioFrame.durationMs).sum

/-- Modelled from the spec: `getCurrentBufferMs` — the sum of durations of
currently queued frames, 0 when empty or torn down. -/
def AudioBufferManager.getCurrentBufferMs (m : AudioBufferManager) : ℚ :=
  totalDuration m.frameQueue

/-- Modelled from the spec: drop the oldest frames (FIFO) until the buffered
depth is at most `maxMs`. -/
def dropOldest (maxMs : ℚ) : List AudioFrame → List AudioFrame
  | [] => []
  | f :: rest =>
      if totalDuration (f :: rest) ≤ maxMs then f :: rest
      else dropOldest maxMs rest

/-- Modelled from the spec: `enqueueFrames` delegates decoding to the
FrameProcessor, appends the frames, and on a depth above `maxBufferMs` drops
oldest frames FIFO and reports exactly one overrun to the QualityMonitor;
the monitor also observes the arrival and the resulting depth. Safe no-op if
the internal processors were already torn down. Missing source file
src/audio/BufferManagerCore.ts. -/
def AudioBufferManager.enqueueFrames (m : AudioBufferManager)
    (payload : AudioChunkPayload) (nowMs : ℚ) : AudioBufferManager :=
  match m.frameProcessor, m.qualityMonitor with
  | some fp, some qm =>
      let parsed := fp.parseChunk payload nowMs
      let queued := m.frameQueue ++ parsed.1
      let overflowed := m.config.maxBufferMs < totalDuration queued
      let finalQueue := dropOldest m.config.maxBufferMs queued
      let qm1 := qm.recordFrameArrival nowMs
      let qm2 := if overflowed then qm1.recordOverrun else qm1
      let qm3 := qm2.updateBufferLevel (totalDuration finalQueue)
      { m with
        frameQueue := finalQueue
        frameProcessor := some parsed.2
        qualityMonitor := some qm3 }
  | _, _ => m

/-- Modelled from the spec: `startPlayback` is idempotent and a safe no-op
after teardown; on activation it sets the playing flag that drives the
cadence. -/
def AudioBufferManager.startPlayback (m : AudioBufferManager) : AudioBufferManager :=
  if m.frameProcessor.isNone then m else { m with playing := true }

/-- Modelled from the spec: `stopPlayback` cancels the cadence, clears the
queue, resets the sequence counter and buffered depth to zero and clears the
playing flag; safe when not playing. -/
def AudioBufferManager.stopPlayback (m : AudioBufferManager) : AudioBufferManager :=
  { m with
    playing := false
    frameQueue := []
    frameProcessor := m.frameProcessor.map (fun fp => { fp with nextSequenceNumber := 0 })
    qualityMonitor := m.qualityMonitor.map (fun qm => qm.updateBufferLevel 0) }

/-- Modelled from the spec: what one cadence tick hands to the external
frame sink (`playFrame`): the audio bytes, their duration, the routing data,
and whether this is a synthesized silence frame. -/
structure DispatchedAudio where
  bytes : List Nat
  durationMs : ℚ
  turnId : Option String
  encoding : Encoding
  isSilence : Bool
deriving DecidableEq

/-- Modelled from the spec: byte count of a zero-filled buffer spanning
exactly one frame interval. -/
def AudioBufferManager.silenceByteCount (m : AudioBufferManager) : Nat :=
  (Int.floor (m.config.frameIntervalMs * (bytesPerMs : ℚ))).toNat

/-- Modelled from the spec: the synthetic silence frame dispatched on an
underrun — a zero-filled buffer spanning exactly `frameIntervalMs`. -/
def AudioBufferManager.silenceFrame (m : AudioBufferManager) : DispatchedAudio :=
  { bytes := List.replicate m.silenceByteCount 0
    durationMs := m.config.frameIntervalMs
    turnId := m.turnId
    encoding := m.encoding
    isSilence := true }

/-- Modelled from the spec: one cadence tick. Nothing happens when not
playing. With a frame available, it is dequeued and dispatched to the frame
sink; with an empty queue the tick is an underrun: it is reported to the
QualityMonitor and exactly one synthetic silence frame is dispatched in
place of the real frame, preserving cadence continuity. Missing source file
src/audio/BufferManagerCore.ts. -/
def AudioBufferManager.tick (m : AudioBufferManager) :
    AudioBufferManager × Option DispatchedAudio :=
  if m.playing = false then (m, none)
  else
    match m.frameQueue with
    | f :: rest =>
        let m1 := { m with
          frameQueue := rest
          qualityMonitor :=
            m.qualityMonitor.map (fun qm => qm.updateBufferLevel (totalDuration rest)) }
        (m1, some { bytes := f.payload, durationMs := f.durationMs, turnId := m.turnId,
                    encoding := m.encoding, isSilence := false })
    | [] =>
        let m1 := { m with
          qualityMonitor := m.qualityMonitor.map QualityMonitor.recordUnderrun }
        (m1, some m.silenceFrame)

/-- Modelled from the spec: `updateConfig` merges Partial fields into the
configuration, clamping `targetBufferMs` into `[minBufferMs, maxBufferMs]`
on every update. -/
def AudioBufferManager.updateConfig (m : AudioBufferManager)
    (upd : BufferConfigUpdate) : AudioBufferManager :=
  let merged := mergeConfig m.config upd
  { m with config :=
      { merged with targetBufferMs := clampTarget merged merged.targetBufferMs } }

/-- Modelled from the spec: apply one recommended adjustment — compute the
candidate target (current target + adjustment) clamped to the configured
bounds and call `updateConfig` only when the clamped candidate differs from
the current target. The Bool reports whether `updateConfig` was invoked. -/
def AudioBufferManager.applyAdjustment (m : AudioBufferManager) (adj : ℚ) :
    AudioBufferManager × Bool :=
  if adj = 0 then (m, false)
  else
    let candidate := clampTarget m.config (m.config.targetBufferMs + adj)
    if candidate = m.config.targetBufferMs then (m, false)
    else (m.updateConfig { targetBufferMs := some candidate }, true)

/-- Modelled from the spec: `applyAdaptiveAdjustments` queries the
QualityMonitor's recommendation (which may bump its adjustment counter) and
applies it through `applyAdjustment`; a safe no-op after teardown. Missing
source file src/audio/BufferManagerCore.ts. -/
def AudioBufferManager.applyAdaptiveAdjustments (m : AudioBufferManager) :
    AudioBufferManager :=
  match m.qualityMonitor with
  | none => m
  | some qm =>
      let rec' := qm.getRecommendedAdjustment
      let m1 := { m with qualityMonitor := some rec'.2 }
      (m1.applyAdjustment rec'.1).1

/-- Modelled from the spec: `destroy` stops playback and releases the
FrameProcessor and QualityMonitor references; idempotent. -/
def AudioBufferManager.destroy (m : AudioBufferManager) : AudioBufferManager :=
  { m with
    playing := false
    frameQueue := []
    frameProcessor := none
    qualityMonitor := none }

/-- Modelled from the spec: `getHealthMetrics` assembles a QualityMetrics
snapshot from the QualityMonitor plus `config.targetBufferMs`; after
`destroy()` it returns a well-defined idle/zeroed snapshot that still
carries the configured target. Missing source file
src/audio/BufferManagerCore.ts. -/
def AudioBufferManager.getHealthMetrics (m : AudioBufferManager) : QualityMetrics :=
  match m.qualityMonitor with
  | none =>
      { currentBufferMs := 0
        targetBufferMs := m.config.targetBufferMs
        underrunCount := 0
        overrunCount := 0
        averageJitter := 0
        bufferHealthState := BufferHealthState.idle
        adaptiveAdjustmentsCount := 0 }
  | some qm =>
      { currentBufferMs := m.getCurrentBufferMs
        targetBufferMs := m.config.targetBufferMs
        underrunCount := qm.underrunCount
        overrunCount := qm.overrunCount
        averageJitter := roundTo2 qm.averageJitter
        bufferHealthState := qm.getBufferHealthState m.playing m.config.minBufferMs
        adaptiveAdjustmentsCount := qm.adaptiveAdjustmentsCount }

/-- Modelled from the spec: the overrun count held by a manager's monitor
(0 when torn down). -/
def managerOverrunCount (m : AudioBufferManager) : Nat :=
  match m.qualityMonitor with
  | some qm => qm.overrunCount
  | none => 0

/-- Modelled from the spec: the underrun count held by a manager's monitor
(0 when torn down). -/
def managerUnderrunCount (m : AudioBufferManager) : Nat :=
  match m.qualityMonitor with
  | some qm => qm.underrunCount
  | none => 0

/-- Modelled from the spec: the adaptive buffering modes (missing source
file src/types.ts). -/
inductive SmartBufferMode
  | conservative
  | balanced
  | aggressive
  | adaptive
deriving DecidableEq

/-- Modelled from the spec: externally supplied, advisory network conditions
(missing source file src/types.ts). -/
structure NetworkConditions where
  latencyMs : Option ℚ := none
  jitterMs : Option ℚ := none
  packetLossPercent : Option ℚ := none
deriving DecidableEq

/-- Modelled from the spec: optional thresholds for the adaptive mode
(missing source file src/types.ts). -/
structure AdaptiveThresholds where
  highLatencyMs : ℚ
  highJitterMs : ℚ
  packetLossPercent : ℚ
deriving DecidableEq

/-- Modelled from the spec: the SmartBufferConfig
`\x7b mode, networkConditions?, adaptiveThresholds? \x7d` (missing source
file src/types.ts). -/
structure SmartBufferConfig where
  mode : SmartBufferMode
  networkConditions : Option NetworkConditions := none
  adaptiveThresholds : Option AdaptiveThresholds := none
deriving DecidableEq

/-- Modelled from the spec: the AdaptivePolicy (class BufferManagerAdaptive,
a.k.a. SmartBufferManager) — it owns the optional BufferCore (absent while
buffering is disabled) and the time of the last buffering decision (missing
source file src/audio/BufferManagerAdaptive.ts). -/
structure BufferManagerAdaptive where
  config : SmartBufferConfig
  turnId : String
  encoding : Encoding
  bufferManager : Option AudioBufferManager
  lastDecisionTimeMs : Option ℚ
deriving DecidableEq

/-- Modelled from the spec: a freshly constructed BufferManagerAdaptive —
no BufferCore exists yet, so buffering starts disabled. -/
def BufferManagerAdaptive.create (cfg : SmartBufferConfig) (turnId : String)
    (encoding : Encoding) : BufferManagerAdaptive :=
  { config := cfg
    turnId := turnId
    encoding := encoding
    bufferManager := none
    lastDecisionTimeMs := none }

/-- Modelled from the spec: the per-mode decision function compared against
the supplied network conditions — conservative buffers only above a high
latency threshold (≈ 250 ms), balanced above ≈ 150 ms, aggressive above
≈ 100 ms, and adaptive combines latency and jitter with weighting. With no
conditions supplied, buffering is never warranted. Missing source file
src/audio/BufferManagerAdaptive.ts. -/
def shouldEnableBuffering (mode : SmartBufferMode)
    (conditions : Option NetworkConditions) : Bool :=
  match conditions with
  | none => false
  | some c =>
      let latency := c.latencyMs.getD 0
      let jitter := c.jitterMs.getD 0
      match mode with
      | SmartBufferMode.conservative => decide (250 < latency)
      | SmartBufferMode.balanced => decide (150 < latency)
      | SmartBufferMode.aggressive => decide (100 < latency)
      | SmartBufferMode.adaptive => decide (150 < latency + 2 * jitter)

/-- Modelled from the spec: the buffer configuration given to a lazily
created BufferCore, derived from the network conditions (a larger target
under high jitter). -/
def bufferConfigForConditions (conditions : Option NetworkConditions) :
    BufferConfigUpdate :=
  match conditions with
  | none => {}
  | some c =>
      if 50 < c.jitterMs.getD 0 then { targetBufferMs := some 300 } else {}

/-- Modelled from the spec: the re-evaluation interval — the buffering
decision is refreshed on the first chunk of a turn or once more than 5000 ms
have elapsed since the last decision. -/
def decisionIntervalMs : ℚ := 5000

/-- Modelled from the spec: lazily create the BufferCore for this turn with
the turn id and the encoding attached. -/
def BufferManagerAdaptive.makeBufferCore (m : BufferManagerAdaptive) :
    AudioBufferManager :=
  let core := AudioBufferManager.create (bufferConfigForConditions m.config.networkConditions)
  { core with turnId := some m.turnId, encoding := m.encoding }

/-- Modelled from the spec: `processAudioChunk` re-evaluates the buffering
decision on the first chunk or after the 5000 ms interval, switching between
the disabled state (no BufferCore, chunk forwarded to the direct play
callback) and the enabled state (BufferCore owns the data path: the chunk is
enqueued and playback is ensured). The Bool reports whether the direct play
callback was invoked. Missing source file src/audio/BufferManagerAdaptive.ts. -/
def BufferManagerAdaptive.processAudioChunk (m : BufferManagerAdaptive)
    (payload : AudioChunkPayload) (nowMs : ℚ) : BufferManagerAdaptive × Bool :=
  let needsDecision :=
    match m.lastDecisionTimeMs with
    | none => true
    | some t => decide (decisionIntervalMs < nowMs - t)
  let m1 :=
    if needsDecision then
      let warranted := shouldEnableBuffering m.config.mode m.config.networkConditions
      let core :=
        match m.bufferManager, warranted with
        | none, true => some m.makeBufferCore
        | some _, false => none
        | other, _ => other
      { m with bufferManager := core, lastDecisionTimeMs := some nowMs }
    else m
  match m1.bufferManager with
  | none => (m1, true)
  | some core =>
      let core1 := (core.enqueueFrames payload nowMs).startPlayback
      ({ m1 with bufferManager := some core1 }, false)

/-- Modelled from the spec: `updateNetworkConditions` merges new fields into
the stored conditions used by the next re-evaluation, with no immediate
effect on an in-progress decision. -/
def BufferManagerAdaptive.updateNetworkConditions (m : BufferManagerAdaptive)
    (upd : NetworkConditions) : BufferManagerAdaptive :=
  let base := m.config.networkConditions.getD {}
  let merged : NetworkConditions :=
    { latencyMs := upd.latencyMs.orElse (fun _ => base.latencyMs)
      jitterMs := upd.jitterMs.orElse (fun _ => base.jitterMs)
      packetLossPercent := upd.packetLossPercent.orElse (fun _ => base.packetLossPercent) }
  { m with config := { m.config with networkConditions := some merged } }

/-- Modelled from the spec: `isBufferingEnabled` — true iff an underlying
BufferCore instance currently exists. -/
def BufferManagerAdaptive.isBufferingEnabled (m : BufferManagerAdaptive) : Bool :=
  m.bufferManager.isSome

/-- Modelled from the spec: `getHealthMetrics` passes through to the
BufferCore when enabled and otherwise reports a zeroed/idle snapshot. -/
def BufferManagerAdaptive.getHealthMetrics (m : BufferManagerAdaptive) :
    QualityMetrics :=
  match m.bufferManager with
  | some core => core.getHealthMetrics
  | none =>
      { currentBufferMs := 0
        targetBufferMs := 0
        underrunCount := 0
        overrunCount := 0
        averageJitter := 0
        bufferHealthState := BufferHealthState.idle
        adaptiveAdjustmentsCount := 0 }

/-- Modelled from the spec: `destroy` tears down the underlying BufferCore
when one exists; safe to call when never enabled and safe to repeat. -/
def BufferManagerAdaptive.destroy (m : BufferManagerAdaptive) :
    BufferManagerAdaptive :=
  { m with bufferManager := none }

/-- Modelled from the spec: an oversized encoded chunk used to exercise the
64 KiB cap (87500 encoded characters estimate to 65625 decoded bytes). -/
def bigChunk : String := String.mk (List.replicate 87500 'A')

/-! Helper lemmas about the embedded operations. -/

theorem totalDuration_nil : totalDuration [] = 0 := rfl

theorem dropOldest_le (maxMs : ℚ) (hmax : 0 ≤ maxMs) (q : List AudioFrame) :
    totalDuration (dropOldest maxMs q) ≤ maxMs := by
  induction q with
  | nil => simpa [dropOldest, totalDuration] using hmax
  | cons f rest ih =>
      by_cases h : totalDuration (f :: rest) ≤ maxMs
      · simp [dropOldest, h]
      · simpa [dropOldest, h] using ih

theorem dropOldest_suffix (maxMs : ℚ) (q : List AudioFrame) :
    ∃ k, dropOldest maxMs q = q.drop k := by
  induction q with
  | nil => exact ⟨0, rfl⟩
  | cons f rest ih =>
      by_cases h : totalDuration (f :: rest) ≤ maxMs
      · exact ⟨0, by simp [dropOldest, h]⟩
      · obtain ⟨k, hk⟩ := ih
        exact ⟨k + 1, by simp [dropOldest, h, hk]⟩

theorem recordFrameArrival_overrunCount (qm : QualityMonitor) (t : ℚ) :
    (qm.recordFrameArrival t).overrunCount = qm.overrunCount := by
  cases h : qm.lastArrivalMs <;> simp [QualityMonitor.recordFrameArrival, h]

theorem filter_replicate_of_pos {p : Char → Bool} {a : Char} (h : p a = true) (n : Nat) :
    List.filter p (List.replicate n a) = List.replicate n a := by
  induction n with
  | zero => rfl
  | succ k ih => simp [List.replicate, List.filter, h, ih]

/-! The claims. -/

/-- C9: for every QualityMonitor in any state — hence after any sequence of
recordFrameArrival, updateBufferLevel, recordUnderrun, recordOverrun and
getRecommendedAdjustment calls — `reset()` returns the monitor to its
initial state: underrunCount, overrunCount, averageJitterMs, currentBufferMs
and adaptiveAdjustmentsCount all read 0 afterwards, and `reset()` is
idempotent. -/
theorem qualityMonitor_reset_roundtrip (qm : QualityMonitor) :
    qm.reset = QualityMonitor.init qm.frameIntervalMs ∧
    qm.reset.getMetrics.currentBufferMs = 0 ∧
    qm.reset.getMetrics.underrunCount = 0 ∧
    qm.reset.getMetrics.overrunCount = 0 ∧
    qm.reset.getMetrics.averageJitter = 0 ∧
    qm.reset.getMetrics.adaptiveAdjustmentsCount = 0 ∧
    qm.reset.reset = qm.reset := by
  refine ⟨rfl, rfl, rfl, rfl, ?_, rfl, rfl⟩
  show roundTo2 0 = 0
  norm_num [roundTo2]

/-- C7: `getBufferHealthState(isPlaying, minBufferMs)` returns `idle`
whenever `isPlaying` is false, and returns `critical` whenever `isPlaying`
is true and the current buffer depth is below the `minBufferMs` threshold or
below the absolute 50 ms floor. -/
theorem getBufferHealthState_idle_and_critical (qm : QualityMonitor)
    (isPlaying : Bool) (minBufferMs : ℚ) :
    (isPlaying = false →
      qm.getBufferHealthState isPlaying minBufferMs = BufferHealthState.idle) ∧
    (isPlaying = true →
      qm.currentBufferMs < minBufferMs ∨ qm.currentBufferMs < criticalFloorMs →
      qm.getBufferHealthState isPlaying minBufferMs = BufferHealthState.critical) := by
  constructor
  · intro h
    simp [QualityMonitor.getBufferHealthState, h]
  · intro h hlow
    simp [QualityMonitor.getBufferHealthState, h, hlow]

theorem getBufferHealthState_idle_and_critical_witness :
    ((QualityMonitor.init 20).updateBufferLevel 30).currentBufferMs < criticalFloorMs ∧
    ((QualityMonitor.init 20).updateBufferLevel 30).getBufferHealthState false 100
      = BufferHealthState.idle ∧
    ((QualityMonitor.init 20).updateBufferLevel 30).getBufferHealthState true 100
      = BufferHealthState.critical := by
  have hlow : ((QualityMonitor.init 20).updateBufferLevel 30).currentBufferMs
      < criticalFloorMs := by
    show (30 : ℚ) < 50
    norm_num
  refine ⟨hlow, ?_, ?_⟩
  · exact (getBufferHealthState_idle_and_critical
      ((QualityMonitor.init 20).updateBufferLevel 30) false 100).1 rfl
  · exact (getBufferHealthState_idle_and_critical
      ((QualityMonitor.init 20).updateBufferLevel 30) true 100).2 rfl (Or.inr hlow)

/-- C6: `getRecommendedAdjustment()` returns 0 whenever fewer than the
minimal number of arrival samples (10, within the spec's "about 10–15")
have been recorded; every non-zero recommendation increments
`adaptiveAdjustmentsCount` by exactly one, and a zero recommendation leaves
the counter unchanged. -/
theorem getRecommendedAdjustment_gating (qm : QualityMonitor) :
    (qm.arrivalHistory.length < minSamplesForAdjustment →
      qm.getRecommendedAdjustment.1 = 0) ∧
    (qm.getRecommendedAdjustment.1 ≠ 0 →
      qm.getRecommendedAdjustment.2.adaptiveAdjustmentsCount
        = qm.adaptiveAdjustmentsCount + 1) ∧
    (qm.getRecommendedAdjustment.1 = 0 →
      qm.getRecommendedAdjustment.2.adaptiveAdjustmentsCount
        = qm.adaptiveAdjustmentsCount) := by
  by_cases hlen : qm.arrivalHistory.length < minSamplesForAdjustment
  · refine ⟨fun _ => ?_, fun hne => ?_, fun _ => ?_⟩
    · simp [QualityMonitor.getRecommendedAdjustment, hlen]
    · exact absurd (by simp [QualityMonitor.getRecommendedAdjustment, hlen]) hne
    · simp [QualityMonitor.getRecommendedAdjustment, hlen]
  · by_cases hz :
      (if 0 < qm.underrunCount then ((qm.underrunCount : ℚ)) * 20
       else if 3 < qm.overrunCount then -((qm.overrunCount : ℚ) * 10)
       else if qm.averageJitter < lowJitterThresholdMs then -20
       else 0) = 0
    · refine ⟨fun h => absurd h hlen, fun hne => ?_, fun _ => ?_⟩
      · exact absurd (by simp [QualityMonitor.getRecommendedAdjustment, hlen, hz]) hne
      · simp [QualityMonitor.getRecommendedAdjustment, hlen, hz]
    · refine ⟨fun h => absurd h hlen, fun _ => ?_, fun hzero => ?_⟩
      · simp [QualityMonitor.getRecommendedAdjustment, hlen, hz]
      · have : qm.getRecommendedAdjustment.1 ≠ 0 := by
          simp [QualityMonitor.getRecommendedAdjustment, hlen, hz]
        exact absurd hzero this

theorem getRecommendedAdjustment_gating_witness :
    (QualityMonitor.init 20).arrivalHistory.length < minSamplesForAdjustment ∧
    (QualityMonitor.init 20).getRecommendedAdjustment.1 = 0 ∧
    (QualityMonitor.init 20).getRecommendedAdjustment.2.adaptiveAdjustmentsCount
      = (QualityMonitor.init 20).adaptiveAdjustmentsCount := by
  have h := getRecommendedAdjustment_gating (QualityMonitor.init 20)
  have hlen : (QualityMonitor.init 20).arrivalHistory.length
      < minSamplesForAdjustment := by decide
  exact ⟨hlen, h.1 hlen, h.2.2 (h.1 hlen)⟩

/-- C10: after `destroy()` on a BufferCore, `getHealthMetrics()` returns a
snapshot whose currentBufferMs, underrunCount, overrunCount, averageJitter
and adaptiveAdjustmentsCount are 0 and whose bufferHealthState is `idle`,
while targetBufferMs still equals the configured target (240 under the
default configuration) rather than being zeroed; the snapshot is unchanged
across repeated calls because `destroy` is idempotent. -/
theorem destroy_healthMetrics_stable (m : AudioBufferManager) :
    m.destroy.getHealthMetrics =
      { currentBufferMs := 0
        targetBufferMs := m.config.targetBufferMs
        underrunCount := 0
        overrunCount := 0
        averageJitter := 0
        bufferHealthState := BufferHealthState.idle
        adaptiveAdjustmentsCount := 0 } ∧
    m.destroy.destroy = m.destroy ∧
    (AudioBufferManager.create {}).destroy.getHealthMetrics.targetBufferMs = 240 := by
  exact ⟨rfl, rfl, rfl⟩

/-- C1: immediately after every `enqueueFrames` call on a live BufferCore,
`getCurrentBufferMs()` equals the sum of the durations of the frames still
queued and never exceeds the configured `maxBufferMs`; when an enqueue
pushes the depth over `maxBufferMs`, the oldest frames are dropped FIFO
(the remaining queue is a suffix of the appended queue) until the depth is
at most `maxBufferMs`, and exactly one overrun event is reported to the
QualityMonitor for that enqueue call. By induction on the call sequence the
single-call statement covers every sequence of `enqueueFrames` calls. -/
theorem enqueueFrames_depth_invariant
    (m : AudioBufferManager) (p : AudioChunkPayload) (nowMs : ℚ)
    (fp : FrameProcessor) (qm : QualityMonitor)
    (hfp : m.frameProcessor = some fp) (hqm : m.qualityMonitor = some qm)
    (hmax : 0 ≤ m.config.maxBufferMs) :
    (m.enqueueFrames p nowMs).getCurrentBufferMs
      = totalDuration (m.enqueueFrames p nowMs).frameQueue ∧
    (m.enqueueFrames p nowMs).getCurrentBufferMs ≤ m.config.maxBufferMs ∧
    managerOverrunCount (m.enqueueFrames p nowMs)
      = qm.overrunCount +
        (if m.config.maxBufferMs
            < totalDuration (m.frameQueue ++ (fp.parseChunk p nowMs).1)
         then 1 else 0) ∧
    ∃ k, (m.enqueueFrames p nowMs).frameQueue
      = (m.frameQueue ++ (fp.parseChunk p nowMs).1).drop k := by
  simp only [AudioBufferManager.enqueueFrames, hfp, hqm]
  refine ⟨rfl, ?_, ?_, ?_⟩
  · exact dropOldest_le m.config.maxBufferMs hmax _
  · by_cases hover : m.config.maxBufferMs
        < totalDuration (m.frameQueue ++ (fp.parseChunk p nowMs).1)
    · simp [managerOverrunCount, hover, QualityMonitor.updateBufferLevel,
        QualityMonitor.recordOverrun, recordFrameArrival_overrunCount]
    · simp [managerOverrunCount, hover, QualityMonitor.updateBufferLevel,
        recordFrameArrival_overrunCount]
  · exact dropOldest_suffix m.config.maxBufferMs _

theorem enqueueFrames_depth_invariant_witness :
    (AudioBufferManager.create {}).frameProcessor = some (FrameProcessor.init 20) ∧
    (AudioBufferManager.create {}).qualityMonitor = some (QualityMonitor.init 20) ∧
    (0 : ℚ) ≤ (AudioBufferManager.create {}).config.maxBufferMs ∧
    ((AudioBufferManager.create {}).enqueueFrames
        { audioData := some "dGVzdCBhdWRpbyBkYXRh", isFirst := true, isFinal := false }
        0).getCurrentBufferMs
      ≤ (AudioBufferManager.create {}).config.maxBufferMs := by
  have hmax : (0 : ℚ) ≤ (AudioBufferManager.create {}).config.maxBufferMs := by
    show (0 : ℚ) ≤ 480
    norm_num
  refine ⟨rfl, rfl, hmax, ?_⟩
  exact (enqueueFrames_depth_invariant (AudioBufferManager.create {})
    { audioData := some "dGVzdCBhdWRpbyBkYXRh", isFirst := true, isFinal := false }
    0 (FrameProcessor.init 20) (QualityMonitor.init 20) rfl rfl hmax).2.1

/-- C2: on a playing BufferCore with an empty queue, one cadence tick is
treated as an underrun: the underrun count increments by exactly 1 and
exactly one synthetic silence frame — a zero-filled buffer spanning exactly
`frameIntervalMs` — is dispatched in place of a real frame, so the cadence
never stalls. -/
theorem tick_empty_queue_underrun_silence
    (m : AudioBufferManager) (qm : QualityMonitor)
    (hplay : m.playing = true) (hempty : m.frameQueue = [])
    (hqm : m.qualityMonitor = some qm) :
    m.tick.2 = some m.silenceFrame ∧
    m.silenceFrame.bytes = List.replicate m.silenceByteCount 0 ∧
    m.silenceFrame.durationMs = m.config.frameIntervalMs ∧
    m.silenceFrame.isSilence = true ∧
    managerUnderrunCount m.tick.1 = qm.underrunCount + 1 := by
  refine ⟨?_, rfl, rfl, rfl, ?_⟩
  · simp [AudioBufferManager.tick, hplay, hempty]
  · simp [AudioBufferManager.tick, hplay, hempty, hqm, managerUnderrunCount,
      QualityMonitor.recordUnderrun]

theorem tick_empty_queue_underrun_silence_witness :
    (AudioBufferManager.create {}).startPlayback.playing = true ∧
    (AudioBufferManager.create {}).startPlayback.frameQueue = [] ∧
    (AudioBufferManager.create {}).startPlayback.tick.2
      = some (AudioBufferManager.create {}).startPlayback.silenceFrame ∧
    managerUnderrunCount (AudioBufferManager.create {}).startPlayback.tick.1 = 0 + 1 := by
  have h := tick_empty_queue_underrun_silence
    (AudioBufferManager.create {}).startPlayback (QualityMonitor.init 20) rfl rfl rfl
  exact ⟨rfl, rfl, h.1, h.2.2.2.2⟩

/-- C3: on a BufferCore configured with min 120 / target 240 / max 480,
applying a recommended adjustment of +1000 ms yields a final
`targetBufferMs` of exactly 480 and applying −1000 ms yields exactly 120
(the candidate target `current + adjustment` is clamped to
`[minBufferMs, maxBufferMs]`); and `updateConfig` is invoked exactly when
the clamped candidate differs from the current target. -/
theorem applyAdjustment_clamps_to_bounds (m : AudioBufferManager)
    (htarget : m.config.targetBufferMs = 240)
    (hmin : m.config.minBufferMs = 120)
    (hmax : m.config.maxBufferMs = 480) :
    (m.applyAdjustment 1000).1.config.targetBufferMs = 480 ∧
    (m.applyAdjustment (-1000)).1.config.targetBufferMs = 120 ∧
    ∀ adj : ℚ, ((m.applyAdjustment adj).2 = true ↔
      clampTarget m.config (m.config.targetBufferMs + adj) ≠ m.config.targetBufferMs) := by
  refine ⟨?_, ?_, ?_⟩
  · simp only [AudioBufferManager.applyAdjustment, AudioBufferManager.updateConfig,
      mergeConfig, clampTarget, htarget, hmin, hmax, Option.getD_some, Option.getD_none]
    norm_num
  · simp only [AudioBufferManager.applyAdjustment, AudioBufferManager.updateConfig,
      mergeConfig, clampTarget, htarget, hmin, hmax, Option.getD_some, Option.getD_none]
    norm_num
  · intro adj
    by_cases hz : adj = 0
    · subst hz
      simp only [AudioBufferManager.applyAdjustment, if_pos rfl]
      rw [clampTarget, htarget, hmin, hmax]
      norm_num
    · by_cases hc : clampTarget m.config (m.config.targetBufferMs + adj)
          = m.config.targetBufferMs
      · simp [AudioBufferManager.applyAdjustment, hz, hc]
      · simp [AudioBufferManager.applyAdjustment, hz, hc]

theorem applyAdjustment_clamps_to_bounds_witness :
    ((AudioBufferManager.create {}).applyAdjustment 1000).1.config.targetBufferMs = 480 ∧
    ((AudioBufferManager.create {}).applyAdjustment (-1000)).1.config.targetBufferMs = 120 := by
  have h := applyAdjustment_clamps_to_bounds (AudioBufferManager.create {}) rfl rfl rfl
  exact ⟨h.1, h.2.1⟩

/-- C4: `FrameProcessor.parseChunk` is total over all inputs (it is a plain
function into frame lists and can never fail): a payload whose `audioData`
is null/undefined or the empty string yields the empty frame sequence, and
so does every malformed encoded input (one that base64 decoding rejects). -/
theorem parseChunk_total_empty_on_invalid (fp : FrameProcessor) (nowMs : ℚ)
    (b1 b2 : Bool) (s : String) :
    (fp.parseChunk { audioData := none, isFirst := b1, isFinal := b2 } nowMs).1 = [] ∧
    (fp.parseChunk { audioData := some "", isFirst := b1, isFinal := b2 } nowMs).1 = [] ∧
    (base64Decode (stripWhitespace s) = none →
      (fp.parseChunk { audioData := some s, isFirst := b1, isFinal := b2 } nowMs).1 = []) := by
  refine ⟨rfl, rfl, ?_⟩
  intro hmal
  simp only [FrameProcessor.parseChunk]
  split
  · rfl
  · split
    · rfl
    · rw [hmal]

theorem parseChunk_total_empty_on_invalid_witness :
    base64Decode (stripWhitespace "invalid-base64") = none ∧
    ((FrameProcessor.init 20).parseChunk
      { audioData := some "invalid-base64", isFirst := true, isFinal := false } 0).1 = [] := by
  have hmal : base64Decode (stripWhitespace "invalid-base64") = none := by decide
  exact ⟨hmal,
    (parseChunk_total_empty_on_invalid (FrameProcessor.init 20) 0 true false
      "invalid-base64").2.2 hmal⟩

/-- C5: every chunk whose decoded byte size, estimated from the encoded
string length as `len * 3/4`, exceeds the fixed 64 KiB cap is rejected
whole: `parseChunk` returns the empty frame sequence. -/
theorem parseChunk_rejects_oversized (fp : FrameProcessor) (nowMs : ℚ)
    (b1 b2 : Bool) (s : String)
    (hbig : maxChunkBytes < estimatedDecodedSize (stripWhitespace s).length) :
    (fp.parseChunk { audioData := some s, isFirst := b1, isFinal := b2 } nowMs).1 = [] := by
  have hne : ¬ (stripWhitespace s).length = 0 := by
    intro h0
    rw [h0] at hbig
    norm_num [estimatedDecodedSize, maxChunkBytes] at hbig
  simp only [FrameProcessor.parseChunk]
  rw [if_neg hne, if_pos hbig]

theorem parseChunk_rejects_oversized_witness :
    maxChunkBytes < estimatedDecodedSize (stripWhitespace bigChunk).length ∧
    ((FrameProcessor.init 20).parseChunk
      { audioData := some bigChunk, isFirst := true, isFinal := true } 0).1 = [] := by
  have hlen : (stripWhitespace bigChunk).length = 87500 := by
    show (List.filter _ (List.replicate 87500 'A')).length = 87500
    rw [filter_replicate_of_pos (by decide) 87500, List.length_replicate]
  have hbig : maxChunkBytes < estimatedDecodedSize (stripWhitespace bigChunk).length := by
    rw [hlen]
    norm_num [maxChunkBytes, estimatedDecodedSize]
  exact ⟨hbig,
    parseChunk_rejects_oversized (FrameProcessor.init 20) 0 true true bigChunk hbig⟩

/-- C8: an AdaptivePolicy in `conservative` mode with supplied network
conditions reporting 300 ms latency has `isBufferingEnabled()` true after
the first processed chunk, while in `conservative` mode with no network
conditions supplied it remains false. -/
theorem conservative_buffering_first_chunk (p : AudioChunkPayload) (nowMs : ℚ)
    (turnId : String) (e : Encoding) :
    ((BufferManagerAdaptive.create
        { mode := SmartBufferMode.conservative
          networkConditions := some { latencyMs := some 300 } }
        turnId e).processAudioChunk p nowMs).1.isBufferingEnabled = true ∧
    ((BufferManagerAdaptive.create
        { mode := SmartBufferMode.conservative }
        turnId e).processAudioChunk p nowMs).1.isBufferingEnabled = false := by
  constructor
  · have hwarrant : shouldEnableBuffering SmartBufferMode.conservative
        (some { latencyMs := some 300 }) = true := by decide
    simp [BufferManagerAdaptive.processAudioChunk, BufferManagerAdaptive.create,
      BufferManagerAdaptive.isBufferingEnabled, hwarrant]
  · simp [BufferManagerAdaptive.processAudioChunk, BufferManagerAdaptive.create,
      BufferManagerAdaptive.isBufferingEnabled, shouldEnableBuffering]

end ExpoStreamer





